import Mathlib

/-
Shallow embedding of src/app.py, the SIA Review Pulse dashboard script:
the loader/normalizer (load_reviews), the filter chain (filtered), and the
aggregates (avg_rating, positive_share, negative_share, rating_counts,
trend) that the dashboard renders.

Modelling conventions:
- pandas timestamps are modelled at day resolution as calendar dates
  (year, month, day); chronological order is the lexicographic order,
  realised by an injective key (valid dates have month in 1..12 and
  day in 1..31, so day < 32 keeps the key order-preserving).
- a pandas column cell that may hold NaN/NaT/None is an Option;
  comparisons and isin-membership against a null cell are false,
  exactly as in pandas.
- rating and helpful_votes are numeric columns; they are modelled as ℚ
  (the values involved are small integers, exactly representable).
- the pandas parsers pd.to_datetime / pd.to_numeric are third-party
  library routines; they are modelled as arbitrary parameters
  (String → Option _), with errors="coerce" giving none on failure.
-/

namespace App

/-- A calendar date: the wall-clock value of a pandas timestamp, at day
resolution. -/
structure Date where
  year : Int
  month : Int
  day : Int
deriving DecidableEq, Repr

/-- Order key of a date; injective and order-preserving on valid dates
(month in 1..12, day in 1..31 < 32). -/
def Date.key (d : Date) : Int :=
  (d.year * 12 + d.month) * 32 + d.day

/-- Calendar-month key of a date, used by the resample("M") grouping. -/
def Date.monthKey (d : Date) : Int :=
  d.year * 12 + d.month

/-- Chronological comparison of dates (pandas Timestamp <=). -/
def Date.le (a b : Date) : Bool :=
  decide (a.key ≤ b.key)

/-- Strict chronological comparison of dates (pandas Timestamp <). -/
def Date.lt (a b : Date) : Bool :=
  decide (a.key < b.key)

/-- A pandas timestamp: either timezone-aware (carrying its instant as a
UTC wall-clock date) or timezone-naive. -/
inductive PdTimestamp where
  | aware (utcInstant : Date)
  | naive (wallTime : Date)
deriving DecidableEq, Repr

/-- Whether a timestamp is timezone-naive. -/
def PdTimestamp.isNaive : PdTimestamp → Bool
  | .aware _ => false
  | .naive _ => true

/-- The wall-clock date of a timestamp (for an aware one, its UTC
wall-clock value, since to_datetime(utc=True) normalises to UTC). -/
def PdTimestamp.wall : PdTimestamp → Date
  | .aware d => d
  | .naive d => d

/-- A normalized review record: one row of the DataFrame produced by
load_reviews. Every cell that pandas can hold as NaN/NaT/None is an
Option. -/
structure Row where
  published_date : Option PdTimestamp
  rating : Option ℚ
  helpful_votes : Option ℚ
  published_platform : Option String
  type : Option String
  title : Option String
  text : Option String
deriving DecidableEq, Repr

/-- A raw CSV row, before normalization: every cell is an optional
uninterpreted string (none = missing value). -/
structure RawRow where
  published_date : Option String
  rating : Option String
  helpful_votes : Option String
  published_platform : Option String
  type : Option String
  title : Option String
  text : Option String
deriving DecidableEq, Repr

/-- pd.to_datetime(cell, errors="coerce", utc=True) for one cell: a
missing or unparseable value becomes null (NaT), a parsed value is a
timezone-aware UTC timestamp. The parse itself is a pandas library
routine, passed as a parameter. -/
def to_datetime_utc (parse : String → Option Date) (cell : Option String) :
    Option PdTimestamp :=
  (cell.bind parse).map PdTimestamp.aware

/-- Series.dt.tz_convert(None) for one cell: convert an aware timestamp
to UTC and drop the zone marker, yielding a naive timestamp; null stays
null. -/
def tz_convert_none (cell : Option PdTimestamp) : Option PdTimestamp :=
  cell.map fun t => PdTimestamp.naive t.wall

/-- pd.to_numeric(cell, errors="coerce") for one cell: a missing or
unparseable value becomes null. The parse itself is a pandas library
routine, passed as a parameter. -/
def to_numeric (parse : String → Option ℚ) (cell : Option String) : Option ℚ :=
  cell.bind parse

/-- Series.fillna(v) for one cell: null becomes v, a value is kept. -/
def fillna {α : Type} (v : α) : Option α → Option α
  | none => some v
  | some x => some x

/-- The per-row normalization performed by load_reviews (src/app.py lines
25-32): coerce published_date to a naive timestamp, coerce rating and
helpful_votes to numbers, fill helpful_votes nulls with 0 and the two
categorical columns with "Unknown". -/
def load_reviews_row (pdate : String → Option Date) (pnum : String → Option ℚ)
    (raw : RawRow) : Row :=
  { published_date := tz_convert_none (to_datetime_utc pdate raw.published_date)
    rating := to_numeric pnum raw.rating
    helpful_votes := fillna 0 (to_numeric pnum raw.helpful_votes)
    published_platform := fillna "Unknown" raw.published_platform
    type := fillna "Unknown" raw.type
    title := raw.title
    text := raw.text }

/-- Column-wise normalization of the whole table. -/
def normalize (pdate : String → Option Date) (pnum : String → Option ℚ)
    (raws : List RawRow) : List Row :=
  raws.map (load_reviews_row pdate pnum)

/-- What pd.read_csv finds at the dataset path: the file may be missing,
unparseable, or a table of raw rows. -/
inductive CsvSource where
  | missing
  | malformed
  | table (rows : List RawRow)
deriving DecidableEq, Repr

/-- The exception raised by pd.read_csv when the path does not exist or
the table cannot be parsed; the spec names this condition DataLoadError.
Nothing in src/app.py catches it, so it propagates to the caller. -/
inductive DataLoadError where
  | fileNotFound
  | parseError
deriving DecidableEq, Repr

/-- pd.read_csv(path): raises on a missing file or an unparseable table,
otherwise returns the raw rows. -/
def read_csv : CsvSource → Except DataLoadError (List RawRow)
  | .missing => .error .fileNotFound
  | .malformed => .error .parseError
  | .table rows => .ok rows

/-- load_reviews (src/app.py lines 23-33): read the CSV, then normalize
each column. A read failure propagates unchanged. -/
def load_reviews (pdate : String → Option Date) (pnum : String → Option ℚ)
    (src : CsvSource) : Except DataLoadError (List Row) :=
  (read_csv src).map (normalize pdate pnum)

/-- The filter specification applied at src/app.py lines 84-90: inclusive
date bounds, selected platform and type sets, inclusive rating bounds
(the slider values are integers). -/
structure FilterSpec where
  start_date : Date
  end_date : Date
  platforms : List String
  types : List String
  rating_lo : Int
  rating_hi : Int
deriving DecidableEq, Repr

/-- The conjunction of the four filter predicates on one row, with pandas
null semantics: a comparison or isin test against a null cell is false. -/
def row_matches (s : FilterSpec) (r : Row) : Bool :=
  (match r.published_date with
   | none => false
   | some t => Date.le s.start_date t.wall && Date.le t.wall s.end_date) &&
  (match r.published_platform with
   | none => false
   | some p => s.platforms.contains p) &&
  (match r.type with
   | none => false
   | some ty => s.types.contains ty) &&
  (match r.rating with
   | none => false
   | some q => decide ((s.rating_lo : ℚ) ≤ q) && decide (q ≤ (s.rating_hi : ℚ)))

/-- filtered (src/app.py lines 84-90): the subset of rows satisfying all
four predicates. -/
def filtered (data : List Row) (s : FilterSpec) : List Row :=
  data.filter (row_matches s)

/-- The sidebar inputs feeding the filter: raw (possibly inverted) date
bounds, platform and type selections, rating slider bounds. -/
structure AppInputs where
  start_input : Date
  end_input : Date
  platforms : List String
  types : List String
  rating_lo : Int
  rating_hi : Int
deriving DecidableEq, Repr

/-- src/app.py lines 80-81: if start_date > end_date, swap them. -/
def effective_range (i : AppInputs) : Date × Date :=
  if Date.lt i.end_input i.start_input then (i.end_input, i.start_input)
  else (i.start_input, i.end_input)

/-- src/app.py lines 82-83: the "Swapped dates" caption is shown exactly
when the swap happened. -/
def swap_notice (i : AppInputs) : Bool :=
  Date.lt i.end_input i.start_input

/-- The filter specification actually applied, after the swap. -/
def spec_of_inputs (i : AppInputs) : FilterSpec :=
  { start_date := (effective_range i).1
    end_date := (effective_range i).2
    platforms := i.platforms
    types := i.types
    rating_lo := i.rating_lo
    rating_hi := i.rating_hi }

/-- The filtered subset the app computes from the sidebar inputs. -/
def app_filtered (data : List Row) (i : AppInputs) : List Row :=
  filtered data (spec_of_inputs i)

/-- Series.isin(vals) applied to the rating cell: false on null. -/
def rating_isin (vals : List ℚ) (r : Row) : Bool :=
  match r.rating with
  | none => false
  | some q => vals.any fun v => decide (v = q)

/-- avg_rating (src/app.py line 93): filtered["rating"].mean(), the mean
of the non-null ratings; NaN (none) when there is no non-null rating. -/
def avg_rating (rows : List Row) : Option ℚ :=
  let vs := rows.filterMap Row.rating
  if vs.length = 0 then none else some (vs.sum / (vs.length : ℚ))

/-- Modelled from the spec: the arithmetic mean of a list of values,
undefined for the empty list. Used to compare avg_rating against the
spec wording of claim C4. -/
def arithmetic_mean (vs : List ℚ) : Option ℚ :=
  if vs.isEmpty then none else some (vs.sum / (vs.length : ℚ))

/-- The Average rating metric card (src/app.py line 132): "N/A" (outer
none) iff total_reviews is 0, otherwise it prints avg_rating. -/
def average_rating_metric (rows : List Row) : Option (Option ℚ) :=
  if rows.length = 0 then none else some (avg_rating rows)

/-- positive_share (src/app.py lines 95-99): percentage of rows with
rating in {4, 5}, and 0 for the empty subset. -/
def positive_share (rows : List Row) : ℚ :=
  if rows.length = 0 then 0
  else ((rows.filter (rating_isin [4, 5])).length : ℚ) / (rows.length : ℚ) * 100

/-- negative_share (src/app.py lines 100-104): percentage of rows with
rating in {1, 2}, and 0 for the empty subset. -/
def negative_share (rows : List Row) : ℚ :=
  if rows.length = 0 then 0
  else ((rows.filter (rating_isin [1, 2])).length : ℚ) / (rows.length : ℚ) * 100

/-- The size of the groupby("rating", dropna=False) bucket for rating
value v (src/app.py lines 138-143); v = none is the null-rating bucket.
A value absent from the table has bucket size 0. -/
def rating_counts_at (rows : List Row) (v : Option ℚ) : Nat :=
  (rows.filter fun r => decide (r.rating = v)).length

/-- filtered.dropna(subset=["published_date"]) (src/app.py line 176). -/
def dropna_date (rows : List Row) : List Row :=
  rows.filter fun r => r.published_date.isSome

/-- The calendar-month keys of the non-null published dates, one per
row (the index that resample("M") groups over). -/
def monthsOf (rows : List Row) : List Int :=
  (dropna_date rows).filterMap fun r =>
    r.published_date.map fun t => t.wall.monthKey

/-- trend (src/app.py lines 175-181): drop null dates, resample by
calendar month, count rows per month. resample("M") emits every month
from the earliest to the latest date present, including months with no
rows (count 0); it is empty when no non-null date remains. -/
def trend (rows : List Row) : List (Int × Nat) :=
  match (monthsOf rows).min?, (monthsOf rows).max? with
  | some lo, some hi =>
      (List.range (hi + 1 - lo).toNat).map fun (i : Nat) =>
        (lo + (i : Int), (monthsOf rows).count (lo + (i : Int)))
  | _, _ => []

/-- Everything of the dashboard that the modelled claims mention: row
count, the average-rating metric card, the two shares, the monthly trend
and the swap caption. -/
structure Dashboard where
  total : Nat
  avg_metric : Option (Option ℚ)
  pos_share : ℚ
  neg_share : ℚ
  trend_series : List (Int × Nat)
  swapped : Bool
deriving DecidableEq, Repr

/-- The whole script: load the dataset, apply the sidebar filters, and
render the aggregates. A load failure propagates and nothing is
rendered. -/
def run_app (pdate : String → Option Date) (pnum : String → Option ℚ)
    (src : CsvSource) (i : AppInputs) : Except DataLoadError Dashboard :=
  match load_reviews pdate pnum src with
  | .error e => .error e
  | .ok data =>
      let rows := app_filtered data i
      .ok { total := rows.length
            avg_metric := average_rating_metric rows
            pos_share := positive_share rows
            neg_share := negative_share rows
            trend_series := trend rows
            swapped := swap_notice i }

/-
Spec-side predicates, written from the wording of claim C3, to be compared
with the filter the source applies.
-/

/-- Spec wording: published_date lies within the inclusive
[start_date, end_date] range (false for a null date). -/
def date_in_range (s e : Date) (r : Row) : Prop :=
  ∃ d, r.published_date = some d ∧
    Date.le s d.wall = true ∧ Date.le d.wall e = true

/-- Spec wording: published_platform is in the selected platform set. -/
def platform_selected (ps : List String) (r : Row) : Prop :=
  ∃ p, r.published_platform = some p ∧ p ∈ ps

/-- Spec wording: type is in the selected type set. -/
def type_selected (ts : List String) (r : Row) : Prop :=
  ∃ ty, r.type = some ty ∧ ty ∈ ts

/-- Spec wording: rating lies within the inclusive [rating_min, rating_max]
range (false for a null rating: a comparison against null yields false). -/
def rating_in_range (lo hi : Int) (r : Row) : Prop :=
  ∃ q, r.rating = some q ∧ (lo : ℚ) ≤ q ∧ q ≤ (hi : ℚ)

/-
Concrete data used by the scenario claims and the witnesses.
-/

/-- Scenario row 1: rating 5, platform Web, January 2024. -/
def c1_row1 : Row :=
  { published_date := some (.naive ⟨2024, 1, 10⟩), rating := some 5
    helpful_votes := some 0, published_platform := some "Web"
    type := some "review", title := none, text := some "great" }

/-- Scenario row 2: rating 1, platform App, February 2024. -/
def c1_row2 : Row :=
  { published_date := some (.naive ⟨2024, 2, 5⟩), rating := some 1
    helpful_votes := some 0, published_platform := some "App"
    type := some "review", title := none, text := some "bad" }

/-- Scenario row 3: null rating, platform Web, March 2024. -/
def c1_row3 : Row :=
  { published_date := some (.naive ⟨2024, 3, 1⟩), rating := none
    helpful_votes := some 0, published_platform := some "Web"
    type := some "review", title := none, text := some "meh" }

/-- The 3-row scenario dataset of claim C1: ratings [5, 1, null],
platforms [Web, App, Web]. -/
def c1_data : List Row := [c1_row1, c1_row2, c1_row3]

/-- The scenario filter of claim C1: a date range covering all three
rows, all platforms, all types, rating range [1, 5]. -/
def c1_spec : FilterSpec :=
  { start_date := ⟨2024, 1, 1⟩, end_date := ⟨2024, 12, 31⟩
    platforms := ["App", "Web"], types := ["review"]
    rating_lo := 1, rating_hi := 5 }

/-- Two-row dataset with reviews in January and March 2024 and nothing in
February, exercising the monthly-trend gap behaviour. -/
def c2_data : List Row :=
  [{ published_date := some (.naive ⟨2024, 1, 15⟩), rating := some 5
     helpful_votes := some 0, published_platform := some "Web"
     type := some "review", title := none, text := none },
   { published_date := some (.naive ⟨2024, 3, 10⟩), rating := some 4
     helpful_votes := some 0, published_platform := some "Web"
     type := some "review", title := none, text := none }]

/-- An all-inclusive filter for the two-row dataset. -/
def c2_spec : FilterSpec :=
  { start_date := ⟨2024, 1, 1⟩, end_date := ⟨2024, 12, 31⟩
    platforms := ["Web"], types := ["review"]
    rating_lo := 1, rating_hi := 5 }

/-- Sidebar inputs whose start date (2024-12-31) is after the end date
(2024-01-01). -/
def c5_inputs : AppInputs :=
  { start_input := ⟨2024, 12, 31⟩, end_input := ⟨2024, 1, 1⟩
    platforms := ["Web"], types := ["review"]
    rating_lo := 1, rating_hi := 5 }

/-- A concrete date parser for witnesses: accepts one fixed string. -/
def c7_pdate : String → Option Date :=
  fun s => if s = "2024-01-10" then some ⟨2024, 1, 10⟩ else none

/-- A concrete numeric parser for witnesses: accepts one fixed string. -/
def c7_pnum : String → Option ℚ :=
  fun s => if s = "5" then some 5 else none

/-- A raw row with a parseable date and rating but missing helpful_votes,
platform and type. -/
def c7_raw : RawRow :=
  { published_date := some "2024-01-10", rating := some "5"
    helpful_votes := none, published_platform := none
    type := none, title := none, text := none }

/-
Helper lemmas shared by the claim proofs.
-/

/-- Every member of an integer list is at least its min?. -/
theorem int_min?_le {ms : List Int} {lo b : Int} (h : ms.min? = some lo)
    (hb : b ∈ ms) : lo ≤ b :=
  (List.le_min?_iff (fun _ _ _ => le_min_iff) h).mp le_rfl b hb

/-- Every member of an integer list is at most its max?. -/
theorem int_le_max? {ms : List Int} {hi b : Int} (h : ms.max? = some hi)
    (hb : b ∈ ms) : b ≤ hi :=
  (List.max?_le_iff (fun _ _ _ => max_le_iff) h).mp le_rfl b hb

/-- The min? of an integer list is a member. -/
theorem int_min?_mem {ms : List Int} {lo : Int} (h : ms.min? = some lo) :
    lo ∈ ms :=
  List.min?_mem (fun _ _ => min_choice _ _) h

/-- The max? of an integer list is a member. -/
theorem int_max?_mem {ms : List Int} {hi : Int} (h : ms.max? = some hi) :
    hi ∈ ms :=
  List.max?_mem (fun _ _ => max_choice _ _) h

/-- Filtering a list by two predicates that never hold together yields
sublists whose lengths sum to at most the original length. -/
theorem filter_disjoint_length_le {α : Type} (p q : α → Bool) (l : List α)
    (h : ∀ x ∈ l, ¬(p x = true ∧ q x = true)) :
    (l.filter p).length + (l.filter q).length ≤ l.length := by
  induction l with
  | nil => simp
  | cons a l ih =>
    have ha := h a (List.mem_cons_self a l)
    have ih' := ih fun x hx => h x (List.mem_cons_of_mem _ hx)
    cases hp : p a <;> cases hq : q a
    · simp [List.filter_cons, hp, hq]
      omega
    · simp [List.filter_cons, hp, hq]
      omega
    · simp [List.filter_cons, hp, hq]
      omega
    · exact absurd ⟨hp, hq⟩ ha

/-- A row accepted by the filter has a non-null published_date, a
non-null rating, a platform in the selected set and a type in the
selected set; and conversely. -/
theorem row_matches_eq_true_iff (s : FilterSpec) (r : Row) :
    row_matches s r = true ↔
      date_in_range s.start_date s.end_date r ∧
      platform_selected s.platforms r ∧
      type_selected s.types r ∧
      rating_in_range s.rating_lo s.rating_hi r := by
  cases hd : r.published_date <;> cases hp : r.published_platform <;>
    cases ht : r.type <;> cases hq : r.rating <;>
      simp [row_matches, hd, hp, ht, hq, date_in_range, platform_selected,
        type_selected, rating_in_range, and_assoc]

/-- Membership in the monthly trend: (m, c) is an entry exactly when m
lies between the earliest and the latest month having data and c is the
number of rows falling in month m. -/
theorem trend_mem_iff (rows : List Row) (m : Int) (c : Nat) :
    (m, c) ∈ trend rows ↔
      ∃ lo hi, (monthsOf rows).min? = some lo ∧
        (monthsOf rows).max? = some hi ∧
        lo ≤ m ∧ m ≤ hi ∧ c = (monthsOf rows).count m := by
  unfold trend
  cases hmin : (monthsOf rows).min? with
  | none =>
    simp
  | some lo =>
    cases hmax : (monthsOf rows).max? with
    | none =>
      have : monthsOf rows = [] := List.max?_eq_none_iff.mp hmax
      rw [this] at hmin
      simp at hmin
    | some hi =>
      have hlohi : lo ≤ hi := int_le_max? hmax (int_min?_mem hmin)
      constructor
      · intro hm
        simp only [List.mem_map, List.mem_range] at hm
        rcases hm with ⟨i, hilt, heq⟩
        injection heq with h1 h2
        subst h1
        subst h2
        refine ⟨lo, hi, rfl, rfl, ?_, ?_, rfl⟩ <;> omega
      · rintro ⟨lo', hi', h1, h2, hle1, hle2, hc⟩
        injection h1 with h1
        injection h2 with h2
        subst h1
        subst h2
        simp only [List.mem_map, List.mem_range]
        refine ⟨(m - lo).toNat, by omega, ?_⟩
        rw [show lo + (((m - lo).toNat : Nat) : Int) = m from by omega, hc]

/-- The monthly trend is chronologically ordered: month keys strictly
increase along the series. -/
theorem trend_sorted (rows : List Row) :
    List.Pairwise (fun p q : Int × Nat => p.1 < q.1) (trend rows) := by
  unfold trend
  cases (monthsOf rows).min? with
  | none => exact List.Pairwise.nil
  | some lo =>
    cases (monthsOf rows).max? with
    | none => exact List.Pairwise.nil
    | some hi =>
      refine List.pairwise_map.mpr ?_
      refine (List.pairwise_lt_range _).imp ?_
      intro i j hij
      show lo + (i : Int) < lo + (j : Int)
      omega

/-- A row cannot have a rating in {4, 5} and a rating in {1, 2} at the
same time. -/
theorem rating_isin_disjoint (r : Row) :
    ¬(rating_isin [4, 5] r = true ∧ rating_isin [1, 2] r = true) := by
  rintro ⟨h45, h12⟩
  unfold rating_isin at h45 h12
  cases hq : r.rating with
  | none => rw [hq] at h45; simp at h45
  | some q =>
    rw [hq] at h45 h12
    simp only [List.any_eq_true, List.mem_cons, decide_eq_true_eq] at h45 h12
    rcases h45 with ⟨v, hv, hvq⟩
    rcases h12 with ⟨w, hw, hwq⟩
    rw [← hvq] at hwq
    simp at hv hw
    rcases hv with rfl | rfl <;> rcases hw with rfl | rfl <;> norm_num at hwq

/-- The positive and negative shares sum to at most 100 on a non-empty
row list and are both 0 on the empty one. -/
theorem shares_bound (rows : List Row) :
    (rows ≠ [] → positive_share rows + negative_share rows ≤ 100) ∧
    (rows = [] → positive_share rows = 0 ∧ negative_share rows = 0) := by
  constructor
  · intro hne
    have hn : rows.length ≠ 0 := fun h0 => hne (List.length_eq_zero.mp h0)
    have hcount := filter_disjoint_length_le (rating_isin [4, 5])
      (rating_isin [1, 2]) rows fun r _ => rating_isin_disjoint r
    unfold positive_share negative_share
    rw [if_neg hn, if_neg hn]
    have hnpos : (0 : ℚ) < (rows.length : ℚ) :=
      Nat.cast_pos.mpr (Nat.pos_of_ne_zero hn)
    rw [div_mul_eq_mul_div, div_mul_eq_mul_div, div_add_div_same,
      div_le_iff₀ hnpos]
    have hc : ((rows.filter (rating_isin [4, 5])).length : ℚ) +
        ((rows.filter (rating_isin [1, 2])).length : ℚ) ≤ (rows.length : ℚ) := by
      exact_mod_cast hcount
    nlinarith
  · intro h0
    subst h0
    simp [positive_share, negative_share]

/-- C1 (counterexample): on the 3-row scenario dataset with ratings
[5, 1, null] and rating range [1, 5], the claim's total_count = 3 and
null-histogram-bucket = 1 are false: the between-test drops the
null-rating row, so only 2 rows survive and the null bucket is empty. -/
theorem C1_scenario_counterexample :
    ¬((filtered c1_data c1_spec).length = 3 ∧
      rating_counts_at (filtered c1_data c1_spec) none = 1) := by
  decide

/-- C1 (amended): the scenario filter keeps 2 rows (the null-rating row
is excluded by the between-test), average_rating = 3.0, positive_share =
50%, negative_share = 50%, and the rating histogram has buckets
{5: 1, 1: 1} with an empty null bucket. -/
theorem C1_scenario_amended :
    (filtered c1_data c1_spec).length = 2 ∧
    avg_rating (filtered c1_data c1_spec) = some 3 ∧
    positive_share (filtered c1_data c1_spec) = 50 ∧
    negative_share (filtered c1_data c1_spec) = 50 ∧
    rating_counts_at (filtered c1_data c1_spec) (some 5) = 1 ∧
    rating_counts_at (filtered c1_data c1_spec) (some 1) = 1 ∧
    rating_counts_at (filtered c1_data c1_spec) none = 0 := by
  have hf : filtered c1_data c1_spec = [c1_row1, c1_row2] := by decide
  refine ⟨by decide, ?_, ?_, ?_, by decide, by decide, by decide⟩
  · rw [hf]
    simp [avg_rating, c1_row1, c1_row2]
    norm_num
  · rw [hf]
    simp [positive_share, rating_isin, c1_row1, c1_row2]
    norm_num
  · rw [hf]
    simp [negative_share, rating_isin, c1_row1, c1_row2]
    norm_num

/-- C2 (counterexample): with filtered reviews in January and March 2024
only, the trend emits the entry (February 2024, 0) even though no row
falls in that month — zero-count months inside the span are emitted,
contradicting the claim that they are not. -/
theorem C2_trend_counterexample :
    (24290, 0) ∈ trend (filtered c2_data c2_spec) ∧
    (monthsOf (filtered c2_data c2_spec)).count 24290 = 0 := by
  decide

/-- C2 (amended): the monthly trend of the filtered subset contains one
entry per calendar month from the earliest to the latest non-null
published_date inclusive — months with zero matching rows included with
count 0 (resample gap-fills) — each entry counting the rows of its
month, ordered chronologically; the series is empty when no non-null
date remains. -/
theorem C2_trend_amended (data : List Row) (s : FilterSpec) (m : Int) (c : Nat) :
    ((m, c) ∈ trend (filtered data s) ↔
      ∃ lo hi, (monthsOf (filtered data s)).min? = some lo ∧
        (monthsOf (filtered data s)).max? = some hi ∧
        lo ≤ m ∧ m ≤ hi ∧ c = (monthsOf (filtered data s)).count m) ∧
    List.Pairwise (fun p q : Int × Nat => p.1 < q.1) (trend (filtered data s)) :=
  ⟨trend_mem_iff (filtered data s) m c, trend_sorted (filtered data s)⟩

/-- C2 (witness): the amended characterization applied to the concrete
two-row subset places January 2024 with count 1 in the trend. -/
theorem C2_trend_amended_witness :
    (24289, 1) ∈ trend (filtered c2_data c2_spec) :=
  (C2_trend_amended c2_data c2_spec 24289 1).1.mpr
    ⟨24289, 24291, by decide, by decide, by decide, by decide, by decide⟩

/-- C3: the filter returns exactly the rows of the dataset satisfying the
conjunction of the date-range, platform, type and rating-range
predicates, where a comparison against a null cell is false. -/
theorem C3_filter_conjunction (data : List Row) (s : FilterSpec) (r : Row) :
    r ∈ filtered data s ↔
      r ∈ data ∧ date_in_range s.start_date s.end_date r ∧
      platform_selected s.platforms r ∧ type_selected s.types r ∧
      rating_in_range s.rating_lo s.rating_hi r := by
  unfold filtered
  rw [List.mem_filter]
  exact and_congr_right fun _ => row_matches_eq_true_iff s r

/-- C3 (witness): the characterization applied to the concrete scenario
row 1, which satisfies all four predicates. -/
theorem C3_filter_conjunction_witness :
    c1_row1 ∈ filtered c1_data c1_spec :=
  (C3_filter_conjunction c1_data c1_spec c1_row1).mpr
    ⟨by decide,
     ⟨PdTimestamp.naive ⟨2024, 1, 10⟩, rfl, by decide, by decide⟩,
     ⟨"Web", rfl, by decide⟩,
     ⟨"review", rfl, by decide⟩,
     ⟨5, rfl, by norm_num [c1_spec], by norm_num [c1_spec]⟩⟩

/-- C4: avg_rating on the filtered subset is the arithmetic mean of its
non-null ratings, and the metric card reports it unavailable (N/A)
exactly when the subset is empty. -/
theorem C4_average_rating (data : List Row) (s : FilterSpec) :
    avg_rating (filtered data s) =
      arithmetic_mean ((filtered data s).filterMap Row.rating) ∧
    (average_rating_metric (filtered data s) = none ↔ filtered data s = []) := by
  constructor
  · cases hv : (filtered data s).filterMap Row.rating with
    | nil => simp [avg_rating, arithmetic_mean, hv]
    | cons v tl => simp [avg_rating, arithmetic_mean, hv]
  · unfold average_rating_metric
    by_cases h : (filtered data s).length = 0
    · simp [h, List.length_eq_zero.mp h]
    · have h' := h
      rw [List.length_eq_zero] at h'
      simp [if_neg h, h']

/-- C4 (witness): on the empty dataset the filtered subset is empty and
the metric card shows N/A. -/
theorem C4_average_rating_witness :
    average_rating_metric (filtered [] c1_spec) = none :=
  (C4_average_rating [] c1_spec).2.mpr (by decide)

/-- C5: when the start date is after the end date the app swaps them, so
the effective range is ordered, the sidebar shows the swap caption, and
the resulting subset is exactly the subset of the corrected range. -/
theorem C5_swap (data : List Row) (i : AppInputs)
    (h : Date.lt i.end_input i.start_input = true) :
    swap_notice i = true ∧
    effective_range i = (i.end_input, i.start_input) ∧
    Date.le (effective_range i).1 (effective_range i).2 = true ∧
    app_filtered data i =
      filtered data
        { start_date := i.end_input, end_date := i.start_input,
          platforms := i.platforms, types := i.types,
          rating_lo := i.rating_lo, rating_hi := i.rating_hi } := by
  have hr : effective_range i = (i.end_input, i.start_input) := by
    unfold effective_range
    rw [if_pos h]
  refine ⟨h, hr, ?_, ?_⟩
  · rw [hr]
    unfold Date.lt at h
    unfold Date.le
    simp only [decide_eq_true_eq] at h ⊢
    omega
  · unfold app_filtered spec_of_inputs
    rw [hr]

/-- C5 (witness): concrete inverted inputs (start 2024-12-31, end
2024-01-01) trigger the swap caption and yield the corrected-range
subset on the scenario dataset. -/
theorem C5_swap_witness :
    swap_notice c5_inputs = true ∧
    app_filtered c1_data c5_inputs =
      filtered c1_data
        { start_date := ⟨2024, 1, 1⟩, end_date := ⟨2024, 12, 31⟩,
          platforms := ["Web"], types := ["review"],
          rating_lo := 1, rating_hi := 5 } :=
  ⟨(C5_swap c1_data c5_inputs (by decide)).1,
   (C5_swap c1_data c5_inputs (by decide)).2.2.2⟩

/-- C6: on every filtered subset the positive and negative shares sum to
at most 100 when the subset is non-empty (a rating cannot lie in both
{4,5} and {1,2}) and are both exactly 0 when it is empty. -/
theorem C6_shares (data : List Row) (s : FilterSpec) :
    (filtered data s ≠ [] →
      positive_share (filtered data s) + negative_share (filtered data s) ≤ 100) ∧
    (filtered data s = [] →
      positive_share (filtered data s) = 0 ∧
      negative_share (filtered data s) = 0) :=
  shares_bound (filtered data s)

/-- C6 (witness): on the concrete scenario subset (non-empty) the two
shares sum to at most 100, and on the empty subset both are 0. -/
theorem C6_shares_witness :
    (positive_share (filtered c1_data c1_spec) +
      negative_share (filtered c1_data c1_spec) ≤ 100) ∧
    (positive_share (filtered [] c1_spec) = 0 ∧
      negative_share (filtered [] c1_spec) = 0) :=
  ⟨(C6_shares c1_data c1_spec).1 (by decide),
   (C6_shares [] c1_spec).2 (by decide)⟩

/-- C7: after normalization every row has a null or timezone-naive
published_date (aware inputs are converted then stripped, unparseable
ones become null), a never-null helpful_votes (nulls become 0), and
null platform and type cells replaced by the literal "Unknown". -/
theorem C7_normalization (pdate : String → Option Date)
    (pnum : String → Option ℚ) (raw : RawRow) :
    (∀ t, (load_reviews_row pdate pnum raw).published_date = some t →
      t.isNaive = true) ∧
    (raw.published_date.bind pdate = none →
      (load_reviews_row pdate pnum raw).published_date = none) ∧
    (load_reviews_row pdate pnum raw).helpful_votes.isSome = true ∧
    (raw.helpful_votes.bind pnum = none →
      (load_reviews_row pdate pnum raw).helpful_votes = some 0) ∧
    (raw.published_platform = none →
      (load_reviews_row pdate pnum raw).published_platform = some "Unknown") ∧
    (raw.type = none →
      (load_reviews_row pdate pnum raw).type = some "Unknown") := by
  refine ⟨?_, ?_, ?_, ?_, ?_, ?_⟩
  · intro t ht
    simp only [load_reviews_row, tz_convert_none, to_datetime_utc] at ht
    cases hb : raw.published_date.bind pdate with
    | none => rw [hb] at ht; simp at ht
    | some d =>
      rw [hb] at ht
      simp only [Option.map_map, Option.map_some'] at ht
      injection ht with ht
      rw [← ht]
      rfl
  · intro hb
    simp [load_reviews_row, tz_convert_none, to_datetime_utc, hb]
  · simp only [load_reviews_row, to_numeric]
    cases hb : raw.helpful_votes.bind pnum <;> simp [fillna, hb]
  · intro hb
    simp [load_reviews_row, to_numeric, hb, fillna]
  · intro hb
    simp [load_reviews_row, hb, fillna]
  · intro hb
    simp [load_reviews_row, hb, fillna]

/-- C7 (witness): the invariants applied to a concrete raw row with a
parseable date, missing helpful_votes, platform and type. -/
theorem C7_normalization_witness :
    PdTimestamp.isNaive
        (PdTimestamp.naive (⟨2024, 1, 10⟩ : Date)) = true ∧
    (load_reviews_row c7_pdate c7_pnum c7_raw).helpful_votes = some 0 ∧
    (load_reviews_row c7_pdate c7_pnum c7_raw).published_platform =
      some "Unknown" ∧
    (load_reviews_row c7_pdate c7_pnum c7_raw).type = some "Unknown" :=
  ⟨(C7_normalization c7_pdate c7_pnum c7_raw).1
      (PdTimestamp.naive (⟨2024, 1, 10⟩ : Date)) (by decide),
   (C7_normalization c7_pdate c7_pnum c7_raw).2.2.2.1 rfl,
   (C7_normalization c7_pdate c7_pnum c7_raw).2.2.2.2.1 rfl,
   (C7_normalization c7_pdate c7_pnum c7_raw).2.2.2.2.2 rfl⟩

/-- C8: a missing dataset file or an unparseable table makes the load
fail with the corresponding DataLoadError, which propagates through the
app unchanged — nothing is rendered. -/
theorem C8_load_error (pdate : String → Option Date)
    (pnum : String → Option ℚ) (i : AppInputs) :
    run_app pdate pnum CsvSource.missing i =
      Except.error DataLoadError.fileNotFound ∧
    run_app pdate pnum CsvSource.malformed i =
      Except.error DataLoadError.parseError ∧
    (∀ src e, load_reviews pdate pnum src = Except.error e →
      run_app pdate pnum src i = Except.error e) := by
  refine ⟨rfl, rfl, ?_⟩
  intro src e h
  unfold run_app
  rw [h]

/-- C8 (witness): a concrete missing-file load propagates its error
through the app. -/
theorem C8_load_error_witness :
    run_app c7_pdate c7_pnum CsvSource.missing c5_inputs =
      Except.error DataLoadError.fileNotFound :=
  (C8_load_error c7_pdate c7_pnum c5_inputs).2.2 CsvSource.missing
    DataLoadError.fileNotFound rfl

/-- C9: every filtered row has a non-null rating, so the null bucket of
the rating histogram is empty and avg_rating is defined exactly on the
non-empty filtered subsets. -/
theorem C9_filtered_ratings (data : List Row) (s : FilterSpec) :
    ((filtered data s).all fun r => r.rating.isSome) = true ∧
    rating_counts_at (filtered data s) none = 0 ∧
    (avg_rating (filtered data s)).isSome = !(filtered data s).isEmpty := by
  have hsome : ∀ r ∈ filtered data s, r.rating.isSome = true := by
    intro r hr
    rcases (row_matches_eq_true_iff s r).mp (List.mem_filter.mp hr).2 with
      ⟨-, -, -, q, hq, -⟩
    rw [hq]
    rfl
  refine ⟨?_, ?_, ?_⟩
  · rw [List.all_eq_true]
    exact hsome
  · unfold rating_counts_at
    rw [List.length_eq_zero, List.filter_eq_nil_iff]
    intro r hr
    have := hsome r hr
    cases hq : r.rating with
    | none => rw [hq] at this; simp at this
    | some q => simp [hq]
  · cases hf : filtered data s with
    | nil => simp [avg_rating]
    | cons r rs =>
      have hr : r ∈ filtered data s := by
        rw [hf]
        exact List.mem_cons_self r rs
      have hq := hsome r hr
      cases hqv : r.rating with
      | none => rw [hqv] at hq; simp at hq
      | some q =>
        have hmem : q ∈ (filtered data s).filterMap Row.rating :=
          List.mem_filterMap.mpr ⟨r, hr, hqv⟩
        have hlen : ((filtered data s).filterMap Row.rating).length ≠ 0 :=
          fun h0 =>
            List.ne_nil_of_mem hmem (List.length_eq_zero.mp h0)
        rw [hf] at hlen
        simp only [avg_rating]
        rw [if_neg hlen]
        simp

/-- C10: every filtered row has a non-null published_date (a comparison
against a null date is false), so dropping null-date rows before the
monthly trend removes nothing. -/
theorem C10_filtered_dates (data : List Row) (s : FilterSpec) :
    ((filtered data s).all fun r => r.published_date.isSome) = true ∧
    dropna_date (filtered data s) = filtered data s := by
  have hsome : ∀ r ∈ filtered data s, r.published_date.isSome = true := by
    intro r hr
    rcases (row_matches_eq_true_iff s r).mp (List.mem_filter.mp hr).2 with
      ⟨⟨d, hd, -, -⟩, -, -, -⟩
    rw [hd]
    rfl
  constructor
  · rw [List.all_eq_true]
    exact hsome
  · unfold dropna_date
    rw [List.filter_eq_self]
    exact hsome

end App
